import Mathlib

set_option maxHeartbeats 1000000

/- Shallow embedding of the OpenAI LLM plugin core
   (src/models/openai/models/llm/llm.py): the message codec
   (`_convert_prompt_message_to_dict`), the token estimator
   (`_num_tokens_from_messages`, `_num_tokens_from_string`,
   `_num_tokens_for_tools`), the streaming aggregators
   (`_handle_chat_generate_stream_response`,
   `_handle_generate_stream_response`) and the structured-output guard of
   the chat dispatcher (`_chat_generate`).

   Conventions of the embedding:
   - Python `None` for an optional *string* field that is only ever tested
     for truthiness (where `None` and `""` are indistinguishable) is
     modelled as `""`; optional fields whose `None`-ness is observable
     (e.g. `ChoiceDelta.tool_calls`, `ChoiceDeltaToolCall.function`,
     `ChoiceDeltaToolCallFunction.arguments`, `finish_reason`) are
     modelled as `Option`.
   - Python exceptions are modelled by `Except PyErr`; a raised exception
     aborts the generator, so an aborted stream produces an `Except.error`
     and no chunk list.
   - The external tokenizer (tiktoken) is a parameter: `encode_for` models
     `tiktoken.encoding_for_model` (`none` = `KeyError`), `cl100k` models
     the `cl100k_base` fallback encoding. -/

/-- Kernel-reducible `str.startswith`. -/
def py_starts_with (s pre : String) : Bool := pre.data.isPrefixOf s.data

/-- Helper for `py_split`: fuelled left-to-right scan cutting at each
occurrence of the separator. -/
def py_split_aux (sep : List Char) : Nat → List Char → List Char → List (List Char)
  | _, [], acc => [acc.reverse]
  | 0, rest, acc => [acc.reverse ++ rest]
  | fuel+1, c :: cs, acc =>
    if sep.isPrefixOf (c :: cs) then
      acc.reverse :: py_split_aux sep fuel ((c :: cs).drop sep.length) []
    else
      py_split_aux sep fuel cs (c :: acc)

/-- Kernel-reducible `str.split(sep)` for a non-empty separator
(the source only splits on `":"` and `";base64,"`). -/
def py_split (s sep : String) : List String :=
  (py_split_aux sep.data s.data.length s.data []).map String.mk

instance instDecidableEqExcept {ε α : Type} [DecidableEq ε] [DecidableEq α] :
    DecidableEq (Except ε α) := fun a b =>
  match a, b with
  | .error x, .error y =>
    if h : x = y then .isTrue (by rw [h]) else .isFalse (fun hc => by cases hc; exact h rfl)
  | .error _, .ok _ => .isFalse (fun hc => by cases hc)
  | .ok _, .error _ => .isFalse (fun hc => by cases hc)
  | .ok x, .ok y =>
    if h : x = y then .isTrue (by rw [h]) else .isFalse (fun hc => by cases hc; exact h rfl)

/-- Python exception classes raised by the embedded code paths. -/
inductive PyErr where
  | notImplemented (msg : String)
  | valueError (msg : String)
  | assertionError (msg : String)
  | attributeError (msg : String)
  | typeError (msg : String)
  | keyError (msg : String)
  | indexError (msg : String)
deriving DecidableEq, Repr

/-- `AssistantPromptMessage.ToolCall.ToolCallFunction` of the dify entities. -/
structure ToolCallFunction where
  name : String
  arguments : String
deriving DecidableEq, Repr

/-- `AssistantPromptMessage.ToolCall` of the dify entities. -/
structure ToolCall where
  id : String
  type : String
  function : ToolCallFunction
deriving DecidableEq, Repr

/-- Typed content parts of a user message (text / image-with-detail /
audio-with-data-URI payload), mirroring `TextPromptMessageContent`,
`ImagePromptMessageContent` and `AudioPromptMessageContent`. -/
inductive PromptMessageContent where
  | text (data : String)
  | image (data : String) (detail : String)
  | audio (data : String) (format : String)
deriving DecidableEq, Repr

/-- A user message's `content` is a plain string or a list of typed parts. -/
inductive UserContent where
  | str (s : String)
  | parts (l : List PromptMessageContent)
deriving DecidableEq, Repr

/-- Closed tagged union over the four prompt-message roles. A missing
`name` is modelled as `""` (the source only tests its truthiness). -/
inductive PromptMessage where
  | system (content : String) (name : String)
  | user (content : UserContent) (name : String)
  | assistant (content : String) (tool_calls : List ToolCall) (name : String)
  | tool (content : String) (tool_call_id : String) (name : String)
deriving DecidableEq, Repr

def PromptMessage.msgName : PromptMessage → String
  | .system _ n => n
  | .user _ n => n
  | .assistant _ _ n => n
  | .tool _ _ n => n

def PromptMessage.isTool : PromptMessage → Bool
  | .tool _ _ _ => true
  | _ => false

/-- Wire-level sub-record of a multi-part user message
(`{"type": "text"|"image_url"|"input_audio", ...}`). -/
inductive WireSubMessage where
  | text (t : String)
  | image_url (url : String) (detail : String)
  | input_audio (data : String) (format : String)
deriving DecidableEq, Repr

structure WireFunctionPayload where
  name : String
  arguments : String
deriving DecidableEq, Repr

structure WireToolCall where
  id : String
  type : String
  function : WireFunctionPayload
deriving DecidableEq, Repr

inductive WireContent where
  | str (s : String)
  | parts (l : List WireSubMessage)
deriving DecidableEq, Repr

/-- The wire-level message dict produced by `_convert_prompt_message_to_dict`.
`none` in an `Option` field models absence of the dict key. -/
structure WireMessage where
  role : String
  content : WireContent
  tool_calls : Option (List WireToolCall) := none
  tool_call_id : Option String := none
  name : Option String := none
deriving DecidableEq, Repr

/-- One content part to its wire sub-record; the audio payload is split on
the `";base64,"` marker and index 1 is taken (IndexError when absent),
as in the source. -/
def convert_part : PromptMessageContent → Except PyErr WireSubMessage
  | .text d => .ok (.text d)
  | .image d detail => .ok (.image_url d detail)
  | .audio d format =>
    match (py_split d ";base64,").get? 1 with
    | some b64 => .ok (.input_audio b64 format)
    | none => .error (.indexError "list index out of range")

/-- Wire record of one assistant tool call; `type` defaults to
`"function"` when unset (`tool_call.type or "function"`). -/
def wire_tool_call (tc : ToolCall) : WireToolCall :=
  { id := tc.id
    type := if tc.type = "" then "function" else tc.type
    function := { name := tc.function.name, arguments := tc.function.arguments } }

/-- Final step of the codec: `if message.name and message_dict.get("role") != "tool"`. -/
def attach_name (name : String) (w : WireMessage) : WireMessage :=
  if name ≠ "" ∧ w.role ≠ "tool" then {w with name := some name} else w

/-- Embedding of `_convert_prompt_message_to_dict`. -/
def convert_prompt_message_to_dict : PromptMessage → Except PyErr WireMessage
  | .user content name =>
    match content with
    | .str s => .ok (attach_name name {role := "user", content := .str s})
    | .parts l =>
      match l.mapM convert_part with
      | .error e => .error e
      | .ok subs => .ok (attach_name name {role := "user", content := .parts subs})
  | .assistant content tcs name =>
    .ok (attach_name name
      { role := "assistant", content := .str content
        tool_calls := if tcs = [] then none else some (tcs.map wire_tool_call) })
  | .system content name =>
    .ok (attach_name name {role := "system", content := .str content})
  | .tool content tcid name =>
    .ok (attach_name name {role := "tool", content := .str content, tool_call_id := some tcid})

/-- Per-family message accounting constants
`(tokens_per_message, tokens_per_name)`; `none` models the
`NotImplementedError` family check of `_num_tokens_from_messages`. -/
def tokens_per_message_for (model : String) : Option (Int × Int) :=
  if py_starts_with model "gpt-3.5-turbo-0301" then some (4, -1)
  else if py_starts_with model "gpt-3.5-turbo" || py_starts_with model "gpt-4"
      || py_starts_with model "o1" || py_starts_with model "o3" || py_starts_with model "o4" then
    some (3, 1)
  else none

/-- Fine-tune name normalization (`ft:` strip) followed by the
`chatgpt-4o-latest` / o-series / gpt-4.1 / gpt-4.5 remap to `gpt-4o`,
as at the top of `_num_tokens_from_messages`. -/
def normalize_model (model : String) : String :=
  let m := if py_starts_with model "ft:" then (py_split model ":").getD 1 "" else model
  if m = "chatgpt-4o-latest" || py_starts_with m "o1" || py_starts_with m "o3"
      || py_starts_with m "o4" || py_starts_with m "gpt-4.1" || py_starts_with m "gpt-4.5" then
    "gpt-4o"
  else m

/-- A dict value as seen by the token-counting loop. -/
inductive WireValue where
  | str (s : String)
  | parts (l : List WireSubMessage)
  | toolCalls (l : List WireToolCall)
deriving DecidableEq, Repr

/-- The `(key, value)` items of a wire message dict, in insertion order. -/
def wire_items (w : WireMessage) : List (String × WireValue) :=
  [("role", .str w.role),
   ("content", match w.content with | .str s => .str s | .parts l => .parts l)]
  ++ (match w.tool_calls with | some l => [("tool_calls", .toolCalls l)] | none => [])
  ++ (match w.tool_call_id with | some s => [("tool_call_id", .str s)] | none => [])
  ++ (match w.name with | some s => [("name", .str s)] | none => [])

def sub_text : WireSubMessage → String
  | .text t => t
  | .image_url _ _ => ""
  | .input_audio _ _ => ""

/-- Token charge of one (already list-flattened) string value: the counting
loop iterates a `tool_calls` value after it has been flattened to a string,
so a non-empty string there would hit `tool_call.items()` on a `str`
(AttributeError); an empty string contributes nothing; any other key's
value is encoded. -/
def string_value_tokens (enc : String → Nat) (key s : String) : Except PyErr Int :=
  if key = "tool_calls" then
    if s = "" then .ok 0
    else .error (.attributeError "str object has no attribute items")
  else .ok (enc s : Int)

/-- Token charge of one dict item in `_num_tokens_from_messages`: a list
value is first flattened to the concatenation of its `"text"`-typed
sub-items (a tool-call sub-dict whose `type` is `"text"` has no `"text"`
key: KeyError). -/
def item_tokens (enc : String → Nat) (kv : String × WireValue) : Except PyErr Int :=
  match kv.2 with
  | .str s => string_value_tokens enc kv.1 s
  | .parts l => string_value_tokens enc kv.1 ((l.map sub_text).foldl (fun a b => a ++ b) "")
  | .toolCalls l =>
    if l.any (fun t => t.type = "text") then .error (.keyError "text")
    else string_value_tokens enc kv.1 ""

/-- Per-message charge: `tokens_per_message` plus each item's charge plus
`tokens_per_name` whenever the key is `"name"`. -/
def message_tokens (enc : String → Nat) (tpm tpn : Int) (w : WireMessage) : Except PyErr Int :=
  (wire_items w).foldlM
    (fun acc kv =>
      (item_tokens enc kv).map (fun t => acc + t + (if kv.1 = "name" then tpn else 0)))
    tpm

/-- A JSON-schema property field value: a plain (stringified) value or a
list of strings (as used by `enum` / iterated by the `enum` branch). -/
inductive PropField where
  | pstr (s : String)
  | plist (l : List String)
deriving DecidableEq, Repr

/-- The slice of a tool's JSON-schema `parameters` dict walked by
`_num_tokens_for_tools`: `title`, `type`, `properties`, `required`. -/
structure ToolParameters where
  title : Option String := none
  type : Option String := none
  properties : Option (List (String × List (String × PropField))) := none
  required : Option (List String) := none
deriving DecidableEq, Repr

structure PromptMessageTool where
  name : String
  description : String
  parameters : ToolParameters
deriving DecidableEq, Repr

/-- Python `str()` of a list of strings, for non-`enum` list-valued fields. -/
def py_str_of_list (l : List String) : String :=
  "[" ++ String.intercalate ", " (l.map (fun s => "'" ++ s ++ "'")) ++ "]"

/-- Charge of one property field: the `enum` branch iterates the value
(3 + encode per element; iterating a string iterates its characters);
any other field is charged `encode(field_key) + encode(str(field_value))`
(the source encodes `field_key` once more in this branch, on top of the
unconditional charge added by the caller). -/
def field_value_tokens (enc : String → Nat) (fk : String) (fv : PropField) : Nat :=
  if fk = "enum" then
    match fv with
    | .plist l => l.foldl (fun a s => a + 3 + enc s) 0
    | .pstr s => s.data.foldl (fun a c => a + 3 + enc (String.singleton c)) 0
  else
    enc fk + (match fv with | .pstr s => enc s | .plist l => enc (py_str_of_list l))

/-- Charge of one tool declaration in `_num_tokens_for_tools`;
`parameters.get("type")` is passed to the encoder unguarded, so a missing
`type` raises (TypeError on encoding `None`). -/
def tool_tokens (enc : String → Nat) (tool : PromptMessageTool) : Except PyErr Nat :=
  match tool.parameters.type with
  | none => .error (.typeError "expected a string, got NoneType for parameters type")
  | some ty =>
    let base := enc "type" + enc "function" + enc "name" + enc tool.name
      + enc "description" + enc tool.description + enc "parameters"
    let titleTok := match tool.parameters.title with
      | some t => enc "title" + enc t
      | none => 0
    let typeTok := enc "type" + enc ty
    let propsTok := match tool.parameters.properties with
      | none => 0
      | some props =>
        enc "properties" +
          props.foldl (fun a p =>
            a + enc p.1 +
              p.2.foldl (fun b f => b + enc f.1 + field_value_tokens enc f.1 f.2) 0) 0
    let reqTok := match tool.parameters.required with
      | none => 0
      | some req => enc "required" + req.foldl (fun a r => a + 3 + enc r) 0
    .ok (base + titleTok + typeTok + propsTok + reqTok)

/-- Embedding of `_num_tokens_for_tools`. -/
def num_tokens_for_tools (enc : String → Nat) (tools : List PromptMessageTool) :
    Except PyErr Nat :=
  tools.foldlM (fun acc tool => (tool_tokens enc tool).map (fun t => acc + t)) 0

/-- The `NotImplementedError` message of `_num_tokens_from_messages`. -/
def not_implemented_msg (model : String) : String :=
  "get_num_tokens_from_messages() is not presently implemented for model " ++ model

/-- Embedding of `_num_tokens_from_messages`. `encode_for` models
`tiktoken.encoding_for_model` (`none` = no tokenizer for that name) and
`cl100k` the `cl100k_base` fallback; the family check raises for models
with no known per-message accounting convention; every reply is primed
with 3 extra tokens. -/
def num_tokens_from_messages (encode_for : String → Option (String → Nat))
    (cl100k : String → Nat) (model : String) (messages : List PromptMessage)
    (tools : Option (List PromptMessageTool)) : Except PyErr Int :=
  let m := normalize_model model
  let enc := (encode_for m).getD cl100k
  match tokens_per_message_for m with
  | none => .error (.notImplemented (not_implemented_msg m))
  | some tp =>
    match messages.mapM convert_prompt_message_to_dict with
    | .error e => .error e
    | .ok dicts =>
      match dicts.foldlM (fun acc w => (message_tokens enc tp.1 tp.2 w).map (fun t => acc + t)) 0 with
      | .error e => .error e
      | .ok s =>
        let total := s + 3
        match tools with
        | some ts =>
          if ts = [] then .ok total
          else
            match num_tokens_for_tools enc ts with
            | .error e => .error e
            | .ok tt => .ok (total + (tt : Int))
        | none => .ok total

/-- Embedding of `_num_tokens_from_string` (text-completion counting):
tokenizer keyed by the raw model name with `cl100k_base` fallback, plus
the optional tools charge. -/
def num_tokens_from_string (encode_for : String → Option (String → Nat))
    (cl100k : String → Nat) (model : String) (text : String)
    (tools : Option (List PromptMessageTool)) : Except PyErr Nat :=
  let enc := (encode_for model).getD cl100k
  let n := enc text
  match tools with
  | some ts =>
    if ts = [] then .ok n
    else
      match num_tokens_for_tools enc ts with
      | .error e => .error e
      | .ok tt => .ok (n + tt)
  | none => .ok n

/-- The wire usage trailer (`chunk.usage`). -/
structure CompletionUsage where
  prompt_tokens : Int
  completion_tokens : Int
deriving DecidableEq, Repr

/-- `ChoiceDeltaToolCallFunction` of the openai SDK; `arguments` is
`Optional[str]` and its `None`-ness is observable (the merge appends with
`+=`), so it stays an `Option`. A missing `name` is `""`. -/
structure ChoiceDeltaToolCallFunction where
  name : String
  arguments : Option String
deriving DecidableEq, Repr

/-- `ChoiceDeltaToolCall` of the openai SDK. -/
structure ChoiceDeltaToolCall where
  index : Int
  id : String
  type : String
  function : Option ChoiceDeltaToolCallFunction
deriving DecidableEq, Repr

/-- `ChoiceDeltaFunctionCall` (legacy single-call convention). -/
structure ChoiceDeltaFunctionCall where
  name : String
  arguments : Option String
deriving DecidableEq, Repr

/-- `chunk.choices[i].delta` of a chat stream fragment. `content = ""`
models both `None` and `""` (the source only distinguishes truthiness);
`tool_calls = some []` and `tool_calls = none` are distinguished
(`delta.delta.tool_calls is None` in the keep-alive check). -/
structure ChoiceDelta where
  content : String
  tool_calls : Option (List ChoiceDeltaToolCall)
  function_call : Option ChoiceDeltaFunctionCall
deriving DecidableEq, Repr

structure ChunkChoice where
  index : Int
  delta : ChoiceDelta
  finish_reason : Option String
deriving DecidableEq, Repr

/-- One chat-completion stream fragment. -/
structure ChatCompletionChunk where
  model : String
  choices : List ChunkChoice
  usage : Option CompletionUsage
  system_fingerprint : Option String
deriving DecidableEq, Repr

/-- One text-completion stream fragment's choice. -/
structure CompletionChoice where
  index : Int
  text : String
  finish_reason : Option String
deriving DecidableEq, Repr

/-- One text-completion stream fragment. -/
structure CompletionChunk where
  model : String
  choices : List CompletionChoice
  usage : Option CompletionUsage
  system_fingerprint : Option String
deriving DecidableEq, Repr

/-- The delta message of an output chunk (an `AssistantPromptMessage`). -/
structure AssistantMessage where
  content : String
  tool_calls : List ToolCall
  name : String := ""
deriving DecidableEq, Repr

def AssistantMessage.asPrompt (m : AssistantMessage) : PromptMessage :=
  .assistant m.content m.tool_calls m.name

/-- Modelled from the spec: the Usage record of §3 — prompt tokens,
completion tokens and the derived total; the configured-currency cost is
computed by the external pricing collaborator and is not modelled.
`_calc_response_usage` itself lives in the external plugin framework
(`dify_plugin.LargeLanguageModel`), outside src/; per the spec it is
"Computed once per invocation, never partially" and always yields a
usage record from the two counts. -/
structure LLMUsage where
  prompt_tokens : Int
  completion_tokens : Int
  total_tokens : Int
deriving DecidableEq, Repr

def calc_response_usage (p c : Int) : LLMUsage := ⟨p, c, p + c⟩

structure LLMResultChunkDelta where
  index : Int
  message : AssistantMessage
  finish_reason : Option String := none
  usage : Option LLMUsage := none
deriving DecidableEq, Repr

/-- The normalized output chunk (`LLMResultChunk`). -/
structure LLMResultChunk where
  model : String
  prompt_messages : List PromptMessage
  system_fingerprint : Option String := none
  delta : LLMResultChunkDelta
deriving DecidableEq, Repr

/-- Embedding of `_extract_response_tool_calls`: calls without a
`function` payload are skipped; missing strings default to `""`. -/
def extract_response_tool_calls (l : List ChoiceDeltaToolCall) : List ToolCall :=
  l.filterMap (fun tc =>
    tc.function.map (fun f => ⟨tc.id, tc.type, ⟨f.name, f.arguments.getD ""⟩⟩))

/-- Embedding of `_extract_response_function_call`: the legacy call's id is
its function name and its type is `"function"`. -/
def extract_response_function_call : Option ChoiceDeltaFunctionCall → Option ToolCall
  | some fc => some ⟨fc.name, "function", ⟨fc.name, fc.arguments.getD ""⟩⟩
  | none => none

/-- The aggregator's index-keyed tool-call map; a Python dict preserves
insertion order, so it is a list of key/value pairs. -/
abbrev AggMap := List (Int × ChoiceDeltaToolCall)

def agg_lookup (m : AggMap) (i : Int) : Option ChoiceDeltaToolCall :=
  match m.find? (fun p => p.1 == i) with
  | some p => some p.2
  | none => none

def agg_update (m : AggMap) (i : Int) (tc : ChoiceDeltaToolCall) : AggMap :=
  m.map (fun p => if p.1 = i then (i, tc) else p)

def agg_values (m : AggMap) : List ChoiceDeltaToolCall := m.map (fun p => p.2)

/-- Python truthiness of an optional string. -/
def arg_truthy : Option String → Bool
  | some s => s ≠ ""
  | none => false

/-- The in-place merge of an incoming fragment into the existing map entry
(the `elif tool_call_chunk.index in aggregated_tool_calls` branch):
id and type are overwritten when truthy; `function.name` is overwritten
when truthy and `function.arguments` appended when truthy — both via
attribute access on `existing_call.function`, which raises when the stored
entry has no function payload, and `+=` raises when the stored arguments
are `None`. -/
def merge_tool_call (existing incoming : ChoiceDeltaToolCall) :
    Except PyErr ChoiceDeltaToolCall :=
  let e1 := if incoming.id ≠ "" then {existing with id := incoming.id} else existing
  let e2 := if incoming.type ≠ "" then {e1 with type := incoming.type} else e1
  match incoming.function with
  | none => .ok e2
  | some nf =>
    match (if nf.name ≠ "" then
             match e2.function with
             | none => Except.error (PyErr.attributeError "NoneType object has no attribute name")
             | some ef => Except.ok {e2 with function := some {ef with name := nf.name}}
           else Except.ok e2) with
    | .error e => .error e
    | .ok e3 =>
      if arg_truthy nf.arguments then
        match e3.function with
        | none => .error (.attributeError "NoneType object has no attribute arguments")
        | some ef =>
          match ef.arguments with
          | none => .error (.typeError "unsupported operand types for +=")
          | some ea => .ok {e3 with function := some {ef with arguments := some (ea ++ nf.arguments.getD "")}}
      else .ok e3

/-- One iteration of the stateful aggregation loop: a first sighting of an
index inserts the fragment only when it carries a truthy id; a known index
merges; otherwise the fragment is dropped. -/
def aggregate_one (m : AggMap) (tc : ChoiceDeltaToolCall) : Except PyErr AggMap :=
  match agg_lookup m tc.index with
  | none => if tc.id ≠ "" then .ok (m ++ [(tc.index, tc)]) else .ok m
  | some existing =>
    match merge_tool_call existing tc with
    | .error e => .error e
    | .ok merged => .ok (agg_update m tc.index merged)

def aggregate_tool_calls (m : AggMap) (l : List ChoiceDeltaToolCall) : Except PyErr AggMap :=
  l.foldlM aggregate_one m

/-- The chat aggregator's mutable state across fragments
(spec §3 AggregationState plus the held final chunk). -/
structure ChatStreamState where
  full_assistant_content : String
  fc_storage : Option ChoiceDeltaFunctionCall
  prompt_tokens : Int
  completion_tokens : Int
  final_tool_calls : List ToolCall
  aggregated_tool_calls : AggMap
  final_chunk : LLMResultChunk
deriving DecidableEq, Repr

/-- Family-specific finish-reason recognition: `yi-` models are terminal
only when the finish reason starts with `length`/`stop`/`content_filter`. -/
def has_finish_reason_for (model : String) (fr : Option String) : Bool :=
  if py_starts_with model "yi-" then
    match fr with
    | some s => py_starts_with s "length" || py_starts_with s "stop" || py_starts_with s "content_filter"
    | none => false
  else fr.isSome

/-- Python truthiness of the optional `tool_calls` list. -/
def tool_calls_truthy : Option (List ChoiceDeltaToolCall) → Bool
  | some (_ :: _) => true
  | some [] => false
  | none => false

def mk_chunk (model : String) (pm : List PromptMessage) (fp : Option String)
    (index : Int) (msg : AssistantMessage) (fr : Option String) : LLMResultChunk :=
  { model := model, prompt_messages := pm, system_fingerprint := fp
    delta := { index := index, message := msg, finish_reason := fr, usage := none } }

/-- Tail of the per-fragment processing shared by all non-skipped paths:
extend `final_tool_calls`, run the stateful aggregation, then either emit
the terminal tool-calls chunk, hold the finish-bearing content chunk, or
yield an incremental content chunk. -/
def chat_step_rest (pm : List PromptMessage) (chunk : ChatCompletionChunk)
    (delta : ChunkChoice) (hasFinish : Bool) (st : ChatStreamState)
    (tcs : List ToolCall) : Except PyErr (ChatStreamState × List LLMResultChunk) :=
  let st1 := {st with final_tool_calls := st.final_tool_calls ++ tcs}
  match (if tool_calls_truthy delta.delta.tool_calls then
           aggregate_tool_calls st1.aggregated_tool_calls (delta.delta.tool_calls.getD [])
         else .ok st1.aggregated_tool_calls) with
  | .error e => .error e
  | .ok agg =>
    let st2 := {st1 with aggregated_tool_calls := agg}
    if hasFinish ∧ delta.finish_reason = some "tool_calls" then
      let tcs2 := extract_response_tool_calls (agg_values agg)
      let st3 := {st2 with final_tool_calls := st2.final_tool_calls ++ tcs2}
      .ok (st3,
        [mk_chunk chunk.model pm chunk.system_fingerprint delta.index ⟨"", tcs2, ""⟩ (some "tool_calls")])
    else
      let msg : AssistantMessage := ⟨delta.delta.content, [], ""⟩
      let st3 := {st2 with full_assistant_content := st2.full_assistant_content ++ delta.delta.content}
      if hasFinish then
        .ok ({st3 with
                final_chunk := mk_chunk chunk.model pm chunk.system_fingerprint delta.index msg delta.finish_reason},
             [])
      else
        .ok (st3, [mk_chunk chunk.model pm chunk.system_fingerprint delta.index msg none])

/-- One fragment of `_handle_chat_generate_stream_response`: the
choice-less usage trailer, the keep-alive skip, the legacy function-call
buffer transitions, and the shared tail. -/
def chat_stream_step (model : String) (pm : List PromptMessage) (st : ChatStreamState)
    (chunk : ChatCompletionChunk) : Except PyErr (ChatStreamState × List LLMResultChunk) :=
  match chunk.choices with
  | [] =>
    match chunk.usage with
    | some u =>
      .ok ({st with prompt_tokens := u.prompt_tokens, completion_tokens := u.completion_tokens}, [])
    | none => .ok (st, [])
  | delta :: _ =>
    let hasFinish := has_finish_reason_for model delta.finish_reason
    if ¬hasFinish ∧ delta.delta.content = "" ∧ delta.delta.tool_calls = none
        ∧ delta.delta.function_call = none then
      .ok (st, [])
    else if tool_calls_truthy delta.delta.tool_calls then
      chat_step_rest pm chunk delta hasFinish st
        (extract_response_tool_calls (delta.delta.tool_calls.getD []))
    else
      match st.fc_storage, delta.delta.function_call with
      | some storage, some fc =>
        match storage.arguments with
        | none => .error (.assertionError "storage arguments is not a str")
        | some sa =>
          match fc.arguments with
          | none => .error (.assertionError "function_call arguments is not a str")
          | some fa =>
            .ok ({st with fc_storage := some {storage with arguments := some (sa ++ fa)}}, [])
      | some storage, none =>
        chat_step_rest pm chunk delta hasFinish {st with fc_storage := none}
          (extract_response_function_call (some storage)).toList
      | none, some fc =>
        let fc' := if fc.arguments = none then {fc with arguments := some ""} else fc
        let st' := {st with fc_storage := some fc'}
        if ¬hasFinish then .ok (st', [])
        else chat_step_rest pm chunk delta hasFinish st'
          (extract_response_function_call (some fc')).toList
      | none, none =>
        chat_step_rest pm chunk delta hasFinish st []

def chat_stream_loop (model : String) (pm : List PromptMessage) :
    ChatStreamState → List ChatCompletionChunk →
    Except PyErr (ChatStreamState × List LLMResultChunk)
  | st, [] => .ok (st, [])
  | st, c :: cs =>
    match chat_stream_step model pm st c with
    | .error e => .error e
    | .ok (st', out) =>
      match chat_stream_loop model pm st' cs with
      | .error e => .error e
      | .ok (stF, outs) => .ok (stF, out ++ outs)

def init_chat_state (model : String) (pm : List PromptMessage) : ChatStreamState :=
  { full_assistant_content := ""
    fc_storage := none
    prompt_tokens := 0
    completion_tokens := 0
    final_tool_calls := []
    aggregated_tool_calls := []
    final_chunk := mk_chunk model pm none 0 ⟨"", [], ""⟩ none }

/-- After fragment exhaustion: fall back to the token estimator for either
counter that is still falsy, compute usage, attach it to the held final
chunk. -/
def chat_stream_finalize (encode_for : String → Option (String → Nat))
    (cl100k : String → Nat) (model : String) (pm : List PromptMessage)
    (tools : Option (List PromptMessageTool)) (st : ChatStreamState) :
    Except PyErr LLMResultChunk :=
  match (if st.prompt_tokens = 0 then
           num_tokens_from_messages encode_for cl100k model pm tools
         else .ok st.prompt_tokens) with
  | .error e => .error e
  | .ok pt =>
    match (if st.completion_tokens = 0 then
             num_tokens_from_messages encode_for cl100k model
               [.assistant st.full_assistant_content st.final_tool_calls ""] none
           else .ok st.completion_tokens) with
    | .error e => .error e
    | .ok ct =>
      .ok {st.final_chunk with
             delta := {st.final_chunk.delta with usage := some (calc_response_usage pt ct)}}

/-- Embedding of `_handle_chat_generate_stream_response`: the full chunk
sequence produced for a fragment sequence (the terminal usage-bearing
chunk appended last), or the propagated exception. -/
def handle_chat_generate_stream_response (encode_for : String → Option (String → Nat))
    (cl100k : String → Nat) (model : String) (pm : List PromptMessage)
    (tools : Option (List PromptMessageTool)) (frags : List ChatCompletionChunk) :
    Except PyErr (List LLMResultChunk) :=
  match chat_stream_loop model pm (init_chat_state model pm) frags with
  | .error e => .error e
  | .ok (st, outs) =>
    match chat_stream_finalize encode_for cl100k model pm tools st with
    | .error e => .error e
    | .ok fin => .ok (outs ++ [fin])

/-- The text-completion aggregator's state. -/
structure GenStreamState where
  full_text : String
  prompt_tokens : Int
  completion_tokens : Int
  final_chunk : LLMResultChunk
deriving DecidableEq, Repr

/-- One fragment of `_handle_generate_stream_response`. -/
def gen_stream_step (pm : List PromptMessage) (st : GenStreamState)
    (chunk : CompletionChunk) : GenStreamState × List LLMResultChunk :=
  match chunk.choices with
  | [] =>
    match chunk.usage with
    | some u => ({st with prompt_tokens := u.prompt_tokens, completion_tokens := u.completion_tokens}, [])
    | none => (st, [])
  | delta :: _ =>
    if delta.finish_reason = none ∧ delta.text = "" then (st, [])
    else
      let msg : AssistantMessage := ⟨delta.text, [], ""⟩
      let st1 := {st with full_text := st.full_text ++ delta.text}
      match delta.finish_reason with
      | some _ =>
        ({st1 with
            final_chunk := mk_chunk chunk.model pm chunk.system_fingerprint delta.index msg delta.finish_reason},
         [])
      | none => (st1, [mk_chunk chunk.model pm chunk.system_fingerprint delta.index msg none])

def gen_stream_loop (pm : List PromptMessage) :
    GenStreamState → List CompletionChunk → GenStreamState × List LLMResultChunk
  | st, [] => (st, [])
  | st, c :: cs =>
    let p := gen_stream_step pm st c
    let q := gen_stream_loop pm p.1 cs
    (q.1, p.2 ++ q.2)

def init_gen_state (model : String) (pm : List PromptMessage) : GenStreamState :=
  ⟨"", 0, 0, mk_chunk model pm none 0 ⟨"", [], ""⟩ none⟩

/-- `prompt_messages[0].content` with the `isinstance(content, str)`
assertion (IndexError on an empty list, AssertionError on multi-part). -/
def first_message_content : List PromptMessage → Except PyErr String
  | [] => .error (.indexError "list index out of range")
  | m :: _ =>
    match m with
    | .user (.parts _) _ => .error (.assertionError "content is not a str")
    | .user (.str s) _ => .ok s
    | .system c _ => .ok c
    | .assistant c _ _ => .ok c
    | .tool c _ _ => .ok c

def gen_stream_finalize (encode_for : String → Option (String → Nat))
    (cl100k : String → Nat) (model : String) (pm : List PromptMessage)
    (st : GenStreamState) : Except PyErr LLMResultChunk :=
  match ((if st.prompt_tokens = 0 then
           match first_message_content pm with
           | .error e => .error e
           | .ok c =>
             match num_tokens_from_string encode_for cl100k model c none with
             | .error e => .error e
             | .ok n => .ok (n : Int)
         else .ok st.prompt_tokens) : Except PyErr Int) with
  | .error e => .error e
  | .ok pt =>
    match ((if st.completion_tokens = 0 then
             match num_tokens_from_string encode_for cl100k model st.full_text none with
             | .error e => .error e
             | .ok n => .ok (n : Int)
           else .ok st.completion_tokens) : Except PyErr Int) with
    | .error e => .error e
    | .ok ct =>
      .ok {st.final_chunk with
             delta := {st.final_chunk.delta with usage := some (calc_response_usage pt ct)}}

/-- Embedding of `_handle_generate_stream_response`. -/
def handle_generate_stream_response (encode_for : String → Option (String → Nat))
    (cl100k : String → Nat) (model : String) (pm : List PromptMessage)
    (frags : List CompletionChunk) : Except PyErr (List LLMResultChunk) :=
  let p := gen_stream_loop pm (init_gen_state model pm) frags
  match gen_stream_finalize encode_for cl100k model pm p.1 with
  | .error e => .error e
  | .ok fin => .ok (p.2 ++ [fin])

/-- The transformed `response_format` wire payload:
`{"type": rf}` or `{"type": "json_schema", "json_schema": schema}`
(the schema is represented by its source text, already validated). -/
inductive WireResponseFormat where
  | typed (t : String)
  | json_schema (schema : String)
deriving DecidableEq, Repr

/-- The caller-supplied `model_parameters` entries that `_chat_generate`
inspects. `none` models an absent key. -/
structure ChatModelParams where
  response_format : Option String := none
  json_schema : Option String := none
  max_tokens : Option Int := none
  tool_choice : Option String := none
deriving DecidableEq, Repr

/-- The response-format phase of `_chat_generate` (source lines 675-690):
`json_schema` must be present (truthy) and parse as JSON, else a
`ValueError` is raised before anything is dispatched. `parse_json` models
`json.loads` success (`none` = parse failure). -/
def transform_response_format (parse_json : String → Option Unit) (p : ChatModelParams) :
    Except PyErr (Option WireResponseFormat × ChatModelParams) :=
  match p.response_format with
  | some rf =>
    if rf ≠ "" then
      if rf = "json_schema" then
        match p.json_schema with
        | none => .error (.valueError "Must define JSON Schema when the response format is json_schema")
        | some js =>
          if js = "" then
            .error (.valueError "Must define JSON Schema when the response format is json_schema")
          else
            match parse_json js with
            | none => .error (.valueError ("not correct json_schema format: " ++ js))
            | some _ => .ok (some (.json_schema js), {p with json_schema := none})
      else .ok (some (.typed rf), p)
    else .ok (none, {p with json_schema := none})
  | none => .ok (none, {p with json_schema := none})

def tools_truthy : Option (List PromptMessageTool) → Bool
  | some (_ :: _) => true
  | some [] => false
  | none => false

/-- Embedding of `_clear_illegal_prompt_messages`: for the two
`gpt-4-turbo` checklist models with more than one user message, multi-part
user content is flattened to newline-joined text (images become
`"[IMAGE]"`). -/
def clear_illegal_prompt_messages (model : String) (pm : List PromptMessage) :
    List PromptMessage :=
  if model = "gpt-4-turbo" ∨ model = "gpt-4-turbo-2024-04-09" then
    if 1 < (pm.filter (fun m => match m with | .user _ _ => true | _ => false)).length then
      pm.map (fun m =>
        match m with
        | .user (.parts l) name =>
          .user (.str (String.intercalate "\n" (l.map (fun item =>
            match item with
            | .text d => d
            | .image _ _ => "[IMAGE]"
            | .audio _ _ => "")))) name
        | other => other)
    else pm
  else pm

def o3pro_role : PromptMessage → Option String
  | .user _ _ => some "user"
  | .assistant _ _ _ => some "assistant"
  | .tool _ _ _ => some "tool"
  | .system _ _ => none

def o3pro_content_str : PromptMessage → String
  | .user (.str s) _ => s
  | .user (.parts l) _ =>
    String.intercalate "\n"
      ((l.filterMap (fun i => match i with | .text d => some d | _ => none)))
  | .system c _ => c
  | .assistant c _ _ => c
  | .tool c _ _ => c

/-- Flat text input synthesis of `_chat_generate_o3_pro`: role-prefixed
lines joined by blank lines, skipping roles without a prefix (system) and
empty contents. -/
def o3pro_input (pm : List PromptMessage) : String :=
  String.intercalate "\n\n" (pm.filterMap (fun m =>
    match o3pro_role m with
    | none => none
    | some role =>
      let c := o3pro_content_str m
      if c ≠ "" then some (role ++ ": " ++ c) else none))

def contains_substr (s sub : String) : Bool := 1 < (py_split s sub).length

/-- The parameters of the outgoing API call after the dispatcher's
translations. -/
structure ChatWireParams where
  response_format : Option WireResponseFormat := none
  max_tokens : Option Int := none
  max_completion_tokens : Option Int := none
  max_output_tokens : Option Int := none
  tool_choice : Option String := none
deriving DecidableEq, Repr

/-- The single remote call that `_chat_generate` would dispatch: either
`client.chat.completions.create` or (for o3-pro) `client.responses.create`.
Producing this record models reaching the network call; an `Except.error`
means the invocation failed before any transport call. -/
structure ChatRequest where
  endpoint : String
  model : String
  messages : List WireMessage := []
  input : String := ""
  stream : Bool := false
  params : ChatWireParams
  tools_payload : List PromptMessageTool := []
  stop : Option (List String) := none
  user : Option String := none
  include_usage : Bool := false
deriving DecidableEq, Repr

/-- Embedding of `_chat_generate` up to (and excluding) the remote call:
response-format validation, tools / tool_choice defaulting, stream
options, illegal-prompt cleanup, o-series parameter translation, then
either the o3-pro single-turn request or the chat-completion request with
codec-converted messages. -/
def chat_generate (parse_json : String → Option Unit) (model : String)
    (pm : List PromptMessage) (params : ChatModelParams)
    (tools : Option (List PromptMessageTool)) (stop : Option (List String))
    (stream : Bool) (user : Option String) : Except PyErr ChatRequest :=
  match transform_response_format parse_json params with
  | .error e => .error e
  | .ok rfp =>
    let p1 := rfp.2
    let toolsPayload := match tools with | some ts => ts | none => []
    let toolChoice := if tools_truthy tools ∧ p1.tool_choice = none then some "auto" else p1.tool_choice
    let pm1 := clear_illegal_prompt_messages model pm
    let oSeries := py_starts_with model "o1" || py_starts_with model "o3" || py_starts_with model "o4"
    let maxTok := if oSeries then none else p1.max_tokens
    let maxCompTok := if oSeries then p1.max_tokens else none
    let stop1 := if oSeries then none else stop
    if contains_substr model "o3-pro" then
      .ok { endpoint := "responses.create"
            model := model
            input := o3pro_input pm1
            stream := false
            params := { response_format := rfp.1
                        max_tokens := maxTok
                        max_completion_tokens := none
                        max_output_tokens := maxCompTok
                        tool_choice := toolChoice }
            user := user }
    else
      match pm1.mapM convert_prompt_message_to_dict with
      | .error e => .error e
      | .ok msgs =>
        .ok { endpoint := "chat.completions.create"
              model := model
              messages := msgs
              stream := stream
              params := { response_format := rfp.1
                          max_tokens := maxTok
                          max_completion_tokens := maxCompTok
                          max_output_tokens := none
                          tool_choice := toolChoice }
              tools_payload := toolsPayload
              stop := stop1
              user := user
              include_usage := stream }

/- ========================= theorems ========================= -/

lemma agg_lookup_cons (p : Int × ChoiceDeltaToolCall) (m : AggMap) (i : Int) :
    agg_lookup (p :: m) i = if p.1 = i then some p.2 else agg_lookup m i := by
  by_cases h : p.1 = i
  · simp [agg_lookup, List.find?, h]
  · simp only [agg_lookup, List.find?]
    have : (p.1 == i) = false := by simpa using h
    simp [this, h]

lemma agg_lookup_insert_self (m : AggMap) (i : Int) (tc : ChoiceDeltaToolCall) :
    (agg_lookup (m ++ [(i, tc)]) i).isSome = true := by
  induction m with
  | nil => simp [agg_lookup, List.find?]
  | cons p m ih =>
    rw [List.cons_append, agg_lookup_cons]
    by_cases h : p.1 = i <;> simp [h, ih]

lemma agg_lookup_update_self (m : AggMap) (i : Int) (x : ChoiceDeltaToolCall) :
    (agg_lookup (agg_update m i x) i).isSome = (agg_lookup m i).isSome := by
  induction m with
  | nil => simp [agg_update, agg_lookup, List.find?]
  | cons p m ih =>
    by_cases h : p.1 = i
    · simp [agg_update, agg_lookup_cons, h]
    · simp only [agg_update, List.map_cons, if_neg h]
      rw [agg_lookup_cons, agg_lookup_cons]
      simp only [if_neg h]
      simpa [agg_update] using ih

/-- Observed function name of a fragment or aggregated entry (`""` when the
function payload or its name is absent). -/
def frag_func_name (tc : ChoiceDeltaToolCall) : String :=
  match tc.function with
  | some f => f.name
  | none => ""

/-- Observed function arguments of a fragment or aggregated entry. -/
def frag_func_args (tc : ChoiceDeltaToolCall) : String :=
  match tc.function with
  | some f => f.arguments.getD ""
  | none => ""

/-- C2: in the chat aggregator's index-keyed map, a fragment for an index
already present merges monotonically: id and type are overwritten only
when the incoming fragment carries a non-empty value, the function name is
overwritten only when newly present, arguments are appended (concatenated,
never replaced), and empty/absent fields never clear previously set data;
the map entry is replaced by exactly this merge. -/
theorem spec_c2_merge_monotonic (m : AggMap) (tc existing merged : ChoiceDeltaToolCall)
    (hlook : agg_lookup m tc.index = some existing)
    (hmerge : merge_tool_call existing tc = .ok merged) :
    aggregate_one m tc = .ok (agg_update m tc.index merged)
    ∧ merged.id = (if tc.id = "" then existing.id else tc.id)
    ∧ merged.type = (if tc.type = "" then existing.type else tc.type)
    ∧ frag_func_name merged =
        (if frag_func_name tc = "" then frag_func_name existing else frag_func_name tc)
    ∧ frag_func_args merged = frag_func_args existing ++ frag_func_args tc := by
  refine ⟨by simp [aggregate_one, hlook, hmerge], ?_⟩
  clear hlook
  rcases tc with ⟨idx, tid, tty, tfn⟩
  rcases existing with ⟨eidx, eid, ety, efn⟩
  by_cases h1 : tid = "" <;> by_cases h2 : tty = ""
  all_goals cases tfn with
  | none =>
    simp only [merge_tool_call, h1, h2, if_true, if_false, ite_true, ite_false, ne_eq,
      not_true, not_false_iff, Except.ok.injEq] at hmerge
    subst hmerge
    simp [h1, h2, frag_func_name, frag_func_args, String.append_empty]
  | some nf =>
    rcases nf with ⟨nname, nargs⟩
    by_cases hn : nname = ""
    all_goals cases efn with
    | none =>
      cases nargs with
      | none =>
        simp only [merge_tool_call, h1, h2, hn, arg_truthy, if_true, if_false, ite_true,
          ite_false, ne_eq, not_true, not_false_iff, Bool.false_eq_true, Except.ok.injEq] at hmerge
        first
        | (subst hmerge
           simp [h1, h2, hn, frag_func_name, frag_func_args, String.append_empty])
        | exact absurd hmerge (by simp)
      | some na =>
        by_cases hna : na = ""
        · simp only [merge_tool_call, h1, h2, hn, hna, arg_truthy, if_true, if_false, ite_true,
            ite_false, ne_eq, not_true, not_false_iff, decide_not, Bool.false_eq_true,
            decide_True, decide_False, Bool.not_true, Bool.not_false, Except.ok.injEq] at hmerge
          first
          | (subst hmerge
             simp [h1, h2, hn, hna, frag_func_name, frag_func_args, String.append_empty,
               Option.getD])
          | exact absurd hmerge (by simp)
        · simp only [merge_tool_call, h1, h2, hn, hna, arg_truthy, if_true, if_false, ite_true,
            ite_false, ne_eq, not_true, not_false_iff, decide_not, decide_True, decide_False,
            Bool.not_true, Bool.not_false] at hmerge
          first
          | exact absurd hmerge (by simp)
          | (split at hmerge <;> simp_all)
    | some ef =>
      rcases ef with ⟨ename, eargs⟩
      cases nargs with
      | none =>
        simp only [merge_tool_call, h1, h2, hn, arg_truthy, if_true, if_false, ite_true,
          ite_false, ne_eq, not_true, not_false_iff, Bool.false_eq_true, Except.ok.injEq] at hmerge
        subst hmerge
        simp [h1, h2, hn, frag_func_name, frag_func_args, String.append_empty]
      | some na =>
        by_cases hna : na = ""
        · simp only [merge_tool_call, h1, h2, hn, hna, arg_truthy, if_true, if_false, ite_true,
            ite_false, ne_eq, not_true, not_false_iff, decide_not, decide_True, decide_False,
            Bool.not_true, Bool.not_false, Bool.false_eq_true, Except.ok.injEq] at hmerge
          subst hmerge
          simp [h1, h2, hn, hna, frag_func_name, frag_func_args, String.append_empty, Option.getD]
        · cases eargs with
          | none =>
            simp only [merge_tool_call, h1, h2, hn, hna, arg_truthy, if_true, if_false, ite_true,
              ite_false, ne_eq, not_true, not_false_iff, decide_not, decide_True, decide_False,
              Bool.not_true, Bool.not_false] at hmerge
            first
            | exact absurd hmerge (by simp)
            | simp_all
          | some ea =>
            simp only [merge_tool_call, h1, h2, hn, hna, arg_truthy, if_true, if_false, ite_true,
              ite_false, ne_eq, not_true, not_false_iff, decide_not, decide_True, decide_False,
              Bool.not_true, Bool.not_false, Except.ok.injEq] at hmerge
            first
            | (subst hmerge
               simp [h1, h2, hn, hna, frag_func_name, frag_func_args, Option.getD])
            | simp_all [frag_func_name, frag_func_args, Option.getD]

/-- C10: a tool-call fragment whose index is not yet in the aggregation map
and whose id is empty/absent is discarded entirely (the map is unchanged,
so its name/argument text can never reach the terminal tool-calls chunk),
and after any successful aggregation step an entry for the fragment's
index exists iff it already existed or the fragment carried a non-empty id. -/
theorem spec_c10_empty_id_discarded (m : AggMap) (tc : ChoiceDeltaToolCall) :
    (tc.id = "" → agg_lookup m tc.index = none → aggregate_one m tc = .ok m)
    ∧ (∀ m', aggregate_one m tc = .ok m' →
        ((agg_lookup m' tc.index).isSome ↔ (agg_lookup m tc.index).isSome ∨ tc.id ≠ "")) := by
  constructor
  · intro hid hlook
    simp [aggregate_one, hlook, hid]
  · intro m' hstep
    cases hlook : agg_lookup m tc.index with
    | none =>
      by_cases hid : tc.id = ""
      · have hred : aggregate_one m tc = .ok m := by simp [aggregate_one, hlook, hid]
        rw [hred] at hstep
        injection hstep with h
        subst h
        simp [hlook, hid]
      · have hred : aggregate_one m tc = .ok (m ++ [(tc.index, tc)]) := by
          simp [aggregate_one, hlook, hid]
        rw [hred] at hstep
        injection hstep with h
        subst h
        simp [agg_lookup_insert_self, hid]
    | some existing =>
      cases hm : merge_tool_call existing tc with
      | error e =>
        have hred : aggregate_one m tc = .error e := by simp [aggregate_one, hlook, hm]
        rw [hred] at hstep
        cases hstep
      | ok merged =>
        have hred : aggregate_one m tc = .ok (agg_update m tc.index merged) := by
          simp [aggregate_one, hlook, hm]
        rw [hred] at hstep
        injection hstep with h
        subst h
        simp [agg_lookup_update_self, hlook]

/-- Witness for C10 at a concrete input: a first-sighting fragment with an
empty id and non-empty function name/arguments is dropped, and the entry
for its index is created only by a fragment with a non-empty id. -/
theorem spec_c10_witness :
    aggregate_one [] ⟨0, "", "", some ⟨"g", some "x"⟩⟩ = .ok []
    ∧ ((agg_lookup [((0 : Int), (⟨0, "id1", "", some ⟨"g", some "x"⟩⟩ : ChoiceDeltaToolCall))] (0 : Int)).isSome
        ↔ (agg_lookup ([] : AggMap) (0 : Int)).isSome ∨ ("id1" : String) ≠ "") := by
  constructor
  · exact (spec_c10_empty_id_discarded [] ⟨0, "", "", some ⟨"g", some "x"⟩⟩).1 rfl rfl
  · exact (spec_c10_empty_id_discarded [] ⟨0, "id1", "", some ⟨"g", some "x"⟩⟩).2 _ (by decide)

/-- C6: a fragment with zero choices only captures usage counts when a
usage block is present; it emits no chunk and leaves every other part of
the aggregation state (text accumulator, tool-call map, legacy buffer,
held final chunk) unchanged. -/
theorem spec_c6_zero_choices_frame (model : String) (pm : List PromptMessage)
    (st : ChatStreamState) (chunk : ChatCompletionChunk)
    (h : chunk.choices = []) :
    chat_stream_step model pm st chunk =
      .ok ((match chunk.usage with
            | some u => {st with prompt_tokens := u.prompt_tokens,
                                 completion_tokens := u.completion_tokens}
            | none => st), []) := by
  cases hu : chunk.usage <;> simp [chat_stream_step, h, hu]

/-- Witness for C6 at a concrete input: a choice-less fragment carrying
usage {7, 9} sets both counters and produces no chunk. -/
theorem spec_c6_witness :
    chat_stream_step "gpt-4" [] (init_chat_state "gpt-4" []) ⟨"m", [], some ⟨7, 9⟩, none⟩ =
      .ok ({init_chat_state "gpt-4" [] with prompt_tokens := 7, completion_tokens := 9}, []) :=
  spec_c6_zero_choices_frame "gpt-4" [] (init_chat_state "gpt-4" []) ⟨"m", [], some ⟨7, 9⟩, none⟩ rfl

def c3_frag_start : ChatCompletionChunk :=
  ⟨"m", [⟨0, ⟨"", none, some ⟨"f", some "\x7b"⟩⟩, none⟩], none, none⟩

def c3_frag_args : ChatCompletionChunk :=
  ⟨"m", [⟨0, ⟨"", none, some ⟨"", some "\x7d"⟩⟩, none⟩], none, none⟩

def c3_frag_finish : ChatCompletionChunk :=
  ⟨"m", [⟨0, ⟨"", none, none⟩, some "stop"⟩], none, none⟩

/-- C3: feeding the chat aggregator the legacy fragments
[start(name=f, arguments="{"), (arguments="}"), finish] yields exactly one
completed ToolCall {name "f", arguments "{}"} (buffered, then flushed into
the completed-call list on the finishing fragment) while the first two
fragments emit no chunk — indeed no chunk at all is emitted before the
held terminal one. -/
theorem spec_c3_legacy_buffering :
    (chat_stream_loop "gpt-4" [] (init_chat_state "gpt-4" []) [c3_frag_start, c3_frag_args]).map
        (fun r => r.2) = .ok []
    ∧ (chat_stream_loop "gpt-4" [] (init_chat_state "gpt-4" [])
          [c3_frag_start, c3_frag_args, c3_frag_finish]).map
        (fun r => (r.1.final_tool_calls, r.2)) =
      .ok ([⟨"f", "function", ⟨"f", "{}"⟩⟩], []) := by
  constructor
  · decide
  · decide

/-- C8: whenever the codec succeeds, a non-empty `name` is attached to the
wire record for the System, User and Assistant roles, and the wire record
of a Tool-role message never carries a `name` key, regardless of the Tool
message's own name. -/
theorem spec_c8_name_attachment (m : PromptMessage) (w : WireMessage)
    (h : convert_prompt_message_to_dict m = .ok w) :
    (m.isTool = true → w.name = none)
    ∧ (m.isTool = false → m.msgName ≠ "" → w.name = some m.msgName) := by
  cases m with
  | system c n =>
    injection h with h
    subst h
    refine ⟨by simp [PromptMessage.isTool], fun _ hn => ?_⟩
    simp only [PromptMessage.msgName] at hn
    simp [attach_name, hn, PromptMessage.msgName]
  | user c n =>
    cases c with
    | str s =>
      injection h with h
      subst h
      refine ⟨by simp [PromptMessage.isTool], fun _ hn => ?_⟩
      simp only [PromptMessage.msgName] at hn
      simp [attach_name, hn, PromptMessage.msgName]
    | parts l =>
      simp only [convert_prompt_message_to_dict] at h
      cases hm : l.mapM convert_part with
      | error e => rw [hm] at h; cases h
      | ok subs =>
        rw [hm] at h
        injection h with h
        subst h
        refine ⟨by simp [PromptMessage.isTool], fun _ hn => ?_⟩
        simp only [PromptMessage.msgName] at hn
        simp [attach_name, hn, PromptMessage.msgName]
  | assistant c tcs n =>
    injection h with h
    subst h
    refine ⟨by simp [PromptMessage.isTool], fun _ hn => ?_⟩
    simp only [PromptMessage.msgName] at hn
    simp [attach_name, hn, PromptMessage.msgName]
  | tool c tcid n =>
    injection h with h
    subst h
    refine ⟨fun _ => ?_, by simp [PromptMessage.isTool]⟩
    simp [attach_name]

/-- Witness for C8 at concrete inputs: a named user message gets its name
on the wire; a named tool message does not. -/
theorem spec_c8_witness :
    ((PromptMessage.tool "out" "call-1" "alice").isTool = true →
      ({role := "tool", content := .str "out", tool_call_id := some "call-1"} : WireMessage).name = none)
    ∧ ((PromptMessage.user (.str "hi") "alice").isTool = false →
        (PromptMessage.user (.str "hi") "alice").msgName ≠ "" →
        ({role := "user", content := .str "hi", name := some "alice"} : WireMessage).name =
          some (PromptMessage.user (.str "hi") "alice").msgName) := by
  constructor
  · exact (spec_c8_name_attachment (.tool "out" "call-1" "alice") _ (by decide)).1
  · exact (spec_c8_name_attachment (.user (.str "hi") "alice") _ (by decide)).2

/-- C7: a chat invocation requesting response_format `json_schema` with a
missing/empty or unparseable `json_schema` payload fails with a
caller-visible ValueError before any request record is produced — the
remote client is never invoked (`chat_generate` only reaches a
`ChatRequest`, the model of the transport call, through `Except.ok`). -/
theorem spec_c7_json_schema_fails_fast (parse_json : String → Option Unit) (model : String)
    (pm : List PromptMessage) (params : ChatModelParams)
    (tools : Option (List PromptMessageTool)) (stop : Option (List String))
    (stream : Bool) (user : Option String)
    (hrf : params.response_format = some "json_schema")
    (hbad : params.json_schema = none ∨ params.json_schema = some ""
            ∨ ∃ js, params.json_schema = some js ∧ parse_json js = none) :
    ∃ e, chat_generate parse_json model pm params tools stop stream user =
      .error (.valueError e) := by
  have hfail : ∃ e, transform_response_format parse_json params = .error (.valueError e) := by
    rcases hbad with hjs | hjs | ⟨js, hjs, hparse⟩
    · exact ⟨"Must define JSON Schema when the response format is json_schema",
        by simp [transform_response_format, hrf, hjs]⟩
    · exact ⟨"Must define JSON Schema when the response format is json_schema",
        by simp [transform_response_format, hrf, hjs]⟩
    · by_cases hempty : js = ""
      · exact ⟨"Must define JSON Schema when the response format is json_schema",
          by simp [transform_response_format, hrf, hjs, hempty]⟩
      · exact ⟨"not correct json_schema format: " ++ js,
          by simp [transform_response_format, hrf, hjs, hempty, hparse]⟩
  rcases hfail with ⟨e, he⟩
  exact ⟨e, by simp [chat_generate, he]⟩

/-- Witness for C7 at concrete inputs: a json_schema request with a
missing payload, and one whose payload does not parse, both fail fast. -/
theorem spec_c7_witness :
    (∃ e, chat_generate (fun _ => some ()) "gpt-4" [] ⟨some "json_schema", none, none, none⟩
        none none true none = .error (.valueError e))
    ∧ (∃ e, chat_generate (fun _ => none) "gpt-4" [] ⟨some "json_schema", some "\x7bbad", none, none⟩
        none none true none = .error (.valueError e)) :=
  ⟨spec_c7_json_schema_fails_fast (fun _ => some ()) "gpt-4" []
      ⟨some "json_schema", none, none, none⟩ none none true none rfl (Or.inl rfl),
   spec_c7_json_schema_fails_fast (fun _ => none) "gpt-4" []
      ⟨some "json_schema", some "\x7bbad", none, none⟩ none none true none rfl
      (Or.inr (Or.inr ⟨"\x7bbad", rfl, rfl⟩))⟩

/-- Counterexample to C4 as stated: instantiating the pluggable tokenizer
with a concrete encoder (here character count; any encoder that gives the
role string `"user"` a non-zero cost, as the real cl100k_base does,
behaves the same) the message estimate for a single user message "hi" is
not `tokens_per_message + encode("hi") + 0 + 3`: the code also encodes
the `role` value of the message dict, so the claimed formula undercounts
by `encode("user")`. -/
theorem spec_c4_counterexample :
    num_tokens_from_messages (fun _ => none) (fun s => s.length) "gpt-4"
      [PromptMessage.user (.str "hi") ""] none ≠ .ok (3 + (("hi".length : Nat) : Int) + 3) := by
  decide

/-- C4 (amended): for every tokenizer, the estimate for a single user
message "hi" (no name, no tools) on a current-convention chat model equals
`tokens_per_message (3) + encode("user") + encode("hi") + 0 (no name
surcharge) + 3 (priming)` — the role string of each message dict is
encoded and charged like any other field value. -/
theorem spec_c4_single_message_estimate (encode_for : String → Option (String → Nat))
    (cl100k : String → Nat) :
    num_tokens_from_messages encode_for cl100k "gpt-4" [PromptMessage.user (.str "hi") ""] none =
      .ok (3 + ((((encode_for "gpt-4").getD cl100k) "user" : Nat) : Int)
             + ((((encode_for "gpt-4").getD cl100k) "hi" : Nat) : Int) + 0 + 3) := by
  have hn : normalize_model "gpt-4" = "gpt-4" := by decide
  have hf : tokens_per_message_for "gpt-4" = some (3, 1) := by decide
  have hconv : convert_prompt_message_to_dict (PromptMessage.user (.str "hi") "") =
      .ok {role := "user", content := .str "hi"} := by decide
  simp only [num_tokens_from_messages, hn, hf, List.mapM_cons, List.mapM_nil, hconv]
  simp [message_tokens, wire_items, item_tokens, string_value_tokens, List.foldlM,
    Except.map, bind, Except.bind, pure, Except.pure]

/-- Invariant of every chunk emitted during the fragment loop: no usage,
and an empty tool-call list unless it is the terminal tool-calls chunk. -/
def loop_chunk_inv (c : LLMResultChunk) : Prop :=
  c.delta.usage = none ∧
    (c.delta.finish_reason ≠ some "tool_calls" → c.delta.message.tool_calls = [])

lemma chat_step_rest_out {pm : List PromptMessage} {chunk : ChatCompletionChunk}
    {delta : ChunkChoice} {hasFinish : Bool} {st : ChatStreamState} {tcs : List ToolCall}
    {st' : ChatStreamState} {out : List LLMResultChunk}
    (h : chat_step_rest pm chunk delta hasFinish st tcs = .ok (st', out)) :
    (∀ c ∈ out, loop_chunk_inv c)
    ∧ (st.final_chunk.delta.message.tool_calls = [] →
       st'.final_chunk.delta.message.tool_calls = []) := by
  unfold chat_step_rest at h
  simp only [] at h
  split at h
  · cases h
  · repeat' split at h
    all_goals
      simp only [Except.ok.injEq, Prod.mk.injEq] at h
    all_goals
      obtain ⟨h1, h2⟩ := h
    all_goals
      subst h1
    all_goals
      subst h2
    all_goals refine ⟨?_, ?_⟩
    all_goals first
      | (intro c hc
         first
           | exact absurd hc (List.not_mem_nil c)
           | (simp only [List.mem_singleton] at hc
              subst hc
              simp [loop_chunk_inv, mk_chunk]))
      | (intro hfc
         first
           | simpa [mk_chunk] using hfc
           | simp [mk_chunk])

lemma chat_stream_step_out {model : String} {pm : List PromptMessage}
    {st : ChatStreamState} {chunk : ChatCompletionChunk}
    {st' : ChatStreamState} {out : List LLMResultChunk}
    (h : chat_stream_step model pm st chunk = .ok (st', out)) :
    (∀ c ∈ out, loop_chunk_inv c)
    ∧ (st.final_chunk.delta.message.tool_calls = [] →
       st'.final_chunk.delta.message.tool_calls = []) := by
  unfold chat_stream_step at h
  simp only [] at h
  split at h
  · split at h
    all_goals
      cases h
    all_goals
      exact ⟨fun c hc => absurd hc (List.not_mem_nil c), fun hfc => by simpa using hfc⟩
  · split at h
    · cases h
      exact ⟨fun c hc => absurd hc (List.not_mem_nil c), fun hfc => by simpa using hfc⟩
    · split at h
      · exact chat_step_rest_out h
      · split at h
        · split at h
          · cases h
          · split at h
            · cases h
            · cases h
              exact ⟨fun c hc => absurd hc (List.not_mem_nil c), fun hfc => by simpa using hfc⟩
        · obtain ⟨h1, h2⟩ := chat_step_rest_out h
          exact ⟨h1, fun hfc => h2 hfc⟩
        · split at h
          · cases h
            exact ⟨fun c hc => absurd hc (List.not_mem_nil c), fun hfc => by simpa using hfc⟩
          · obtain ⟨h1, h2⟩ := chat_step_rest_out h
            exact ⟨h1, fun hfc => h2 hfc⟩
        · exact chat_step_rest_out h

lemma chat_stream_loop_out {model : String} {pm : List PromptMessage}
    {st : ChatStreamState} {frags : List ChatCompletionChunk}
    {stF : ChatStreamState} {outs : List LLMResultChunk}
    (h : chat_stream_loop model pm st frags = .ok (stF, outs)) :
    (∀ c ∈ outs, loop_chunk_inv c)
    ∧ (st.final_chunk.delta.message.tool_calls = [] →
       stF.final_chunk.delta.message.tool_calls = []) := by
  induction frags generalizing st outs with
  | nil =>
    simp only [chat_stream_loop, Except.ok.injEq, Prod.mk.injEq] at h
    obtain ⟨h1, h2⟩ := h
    subst h1
    subst h2
    exact ⟨fun c hc => absurd hc (List.not_mem_nil c), fun hfc => hfc⟩
  | cons c cs ih =>
    unfold chat_stream_loop at h
    split at h
    · cases h
    · rename_i st1 out1 hstep
      split at h
      · cases h
      · rename_i st2 outs2 hloop
        simp only [Except.ok.injEq, Prod.mk.injEq] at h
        obtain ⟨h1, h2⟩ := h
        subst h1
        subst h2
        obtain ⟨hs1, hs2⟩ := chat_stream_step_out hstep
        obtain ⟨hl1, hl2⟩ := ih hloop
        refine ⟨?_, fun hfc => hl2 (hs2 hfc)⟩
        intro ck hck
        rcases List.mem_append.mp hck with hin | hin
        · exact hs1 ck hin
        · exact hl1 ck hin

lemma chat_stream_finalize_out {encode_for : String → Option (String → Nat)}
    {cl100k : String → Nat} {model : String} {pm : List PromptMessage}
    {tools : Option (List PromptMessageTool)} {st : ChatStreamState}
    {fin : LLMResultChunk}
    (h : chat_stream_finalize encode_for cl100k model pm tools st = .ok fin) :
    (∃ u, fin.delta.usage = some u)
    ∧ fin.delta.message = st.final_chunk.delta.message := by
  unfold chat_stream_finalize at h
  split at h
  · cases h
  · split at h
    · cases h
    · injection h with h
      subst h
      exact ⟨⟨_, rfl⟩, rfl⟩

lemma gen_stream_step_out (pm : List PromptMessage) (st : GenStreamState)
    (chunk : CompletionChunk) :
    ∀ c ∈ (gen_stream_step pm st chunk).2, c.delta.usage = none := by
  unfold gen_stream_step
  repeat' split
  all_goals intro c hc
  all_goals first
    | exact absurd hc (List.not_mem_nil c)
    | (simp only [List.mem_singleton] at hc
       subst hc
       simp [mk_chunk])

lemma gen_stream_loop_out (pm : List PromptMessage) (frags : List CompletionChunk) :
    ∀ st, ∀ c ∈ (gen_stream_loop pm st frags).2, c.delta.usage = none := by
  induction frags with
  | nil =>
    intro st c hc
    exact absurd hc (List.not_mem_nil c)
  | cons f fs ih =>
    intro st c hc
    unfold gen_stream_loop at hc
    simp only [List.mem_append] at hc
    rcases hc with hin | hin
    · exact gen_stream_step_out pm st f c hin
    · exact ih (gen_stream_step pm st f).1 c hin

lemma gen_stream_finalize_out {encode_for : String → Option (String → Nat)}
    {cl100k : String → Nat} {model : String} {pm : List PromptMessage}
    {st : GenStreamState} {fin : LLMResultChunk}
    (h : gen_stream_finalize encode_for cl100k model pm st = .ok fin) :
    ∃ u, fin.delta.usage = some u := by
  unfold gen_stream_finalize at h
  split at h
  · cases h
  · split at h
    · cases h
    · injection h with h
      subst h
      exact ⟨_, rfl⟩

/-- C1: for every fragment sequence that a streaming invocation consumes to
completion (both the chat-completion and the text-completion stream
handlers), the produced chunk sequence ends in exactly one usage-bearing
chunk: the last chunk's usage is non-null, every earlier chunk's usage is
null, and the final chunk is present even when no input fragment carried a
usage block (the two token counters then fall back to the estimator). -/
theorem spec_c1_usage_chunk_last :
    (∀ (encode_for : String → Option (String → Nat)) (cl100k : String → Nat)
       (model : String) (pm : List PromptMessage) (tools : Option (List PromptMessageTool))
       (frags : List ChatCompletionChunk) (chunks : List LLMResultChunk),
       handle_chat_generate_stream_response encode_for cl100k model pm tools frags = .ok chunks →
       ∃ pre last, chunks = pre ++ [last] ∧ (∃ u, last.delta.usage = some u)
         ∧ ∀ c ∈ pre, c.delta.usage = none)
    ∧ (∀ (encode_for : String → Option (String → Nat)) (cl100k : String → Nat)
       (model : String) (pm : List PromptMessage)
       (frags : List CompletionChunk) (chunks : List LLMResultChunk),
       handle_generate_stream_response encode_for cl100k model pm frags = .ok chunks →
       ∃ pre last, chunks = pre ++ [last] ∧ (∃ u, last.delta.usage = some u)
         ∧ ∀ c ∈ pre, c.delta.usage = none) := by
  constructor
  · intro ef cl model pm tools frags chunks h
    unfold handle_chat_generate_stream_response at h
    split at h
    · cases h
    · rename_i st outs hloop
      split at h
      · cases h
      · rename_i fin hfin
        injection h with h
        subst h
        refine ⟨outs, fin, rfl, (chat_stream_finalize_out hfin).1, ?_⟩
        intro c hc
        exact ((chat_stream_loop_out hloop).1 c hc).1
  · intro ef cl model pm frags chunks h
    unfold handle_generate_stream_response at h
    simp only [] at h
    split at h
    · cases h
    · rename_i fin hfin
      injection h with h
      subst h
      refine ⟨(gen_stream_loop pm (init_gen_state model pm) frags).2, fin, rfl,
        gen_stream_finalize_out hfin, ?_⟩
      intro c hc
      exact gen_stream_loop_out pm frags (init_gen_state model pm) c hc

def except_is_ok {ε α : Type} : Except ε α → Bool
  | .ok _ => true
  | .error _ => false

lemma except_is_ok_iff {ε α : Type} (x : Except ε α) :
    except_is_ok x = true ↔ ∃ a, x = .ok a := by
  cases x <;> simp [except_is_ok]

/-- Witness for C1 at concrete inputs: an empty fragment sequence (so the
wire carried no usage at all) still yields a single, last, usage-bearing
chunk for both handlers, its counters computed by the fallback estimator. -/
theorem spec_c1_witness :
    (∃ chunks, handle_chat_generate_stream_response (fun _ => none) (fun s => s.length)
        "gpt-4" [PromptMessage.user (.str "hi") ""] none [] = .ok chunks
      ∧ ∃ pre last, chunks = pre ++ [last] ∧ (∃ u, last.delta.usage = some u)
        ∧ ∀ c ∈ pre, c.delta.usage = none)
    ∧ (∃ chunks, handle_generate_stream_response (fun _ => none) (fun s => s.length)
        "davinci-002" [PromptMessage.user (.str "hi") ""] [] = .ok chunks
      ∧ ∃ pre last, chunks = pre ++ [last] ∧ (∃ u, last.delta.usage = some u)
        ∧ ∀ c ∈ pre, c.delta.usage = none) := by
  constructor
  · obtain ⟨chunks, hch⟩ := (except_is_ok_iff
      (handle_chat_generate_stream_response (fun _ => none) (fun s => s.length)
        "gpt-4" [PromptMessage.user (.str "hi") ""] none [])).mp (by decide)
    exact ⟨chunks, hch, spec_c1_usage_chunk_last.1 _ _ _ _ _ _ _ hch⟩
  · obtain ⟨chunks, hch⟩ := (except_is_ok_iff
      (handle_generate_stream_response (fun _ => none) (fun s => s.length)
        "davinci-002" [PromptMessage.user (.str "hi") ""] [])).mp (by decide)
    exact ⟨chunks, hch, spec_c1_usage_chunk_last.2 _ _ _ _ _ _ hch⟩

/-- C9: a completed legacy function call — flushed from the single-call
buffer by a fragment that carries no function_call while the stream
finishes with a finish reason other than "tool_calls" — is appended to the
completed-call list used for fallback completion-token estimation, the
buffer empties, no chunk is emitted for that fragment (the finish-bearing
chunk is held), and the held chunk's message carries no tool calls;
globally, every chunk an invocation emits whose finish reason is not
"tool_calls" carries a delta message with an empty tool_calls list. -/
theorem spec_c9_legacy_flush_not_attached :
    (∀ (model : String) (pm : List PromptMessage) (st : ChatStreamState)
       (chunk : ChatCompletionChunk) (delta : ChunkChoice) (rest : List ChunkChoice)
       (fc : ChoiceDeltaFunctionCall) (r : String)
       (st' : ChatStreamState) (out : List LLMResultChunk),
       py_starts_with model "yi-" = false →
       st.fc_storage = some fc →
       chunk.choices = delta :: rest →
       delta.delta.function_call = none →
       tool_calls_truthy delta.delta.tool_calls = false →
       delta.finish_reason = some r →
       r ≠ "tool_calls" →
       chat_stream_step model pm st chunk = .ok (st', out) →
       st'.final_tool_calls = st.final_tool_calls ++
         [⟨fc.name, "function", ⟨fc.name, fc.arguments.getD ""⟩⟩]
       ∧ st'.fc_storage = none
       ∧ out = []
       ∧ st'.final_chunk.delta.message.tool_calls = [])
    ∧ (∀ (encode_for : String → Option (String → Nat)) (cl100k : String → Nat)
       (model : String) (pm : List PromptMessage) (tools : Option (List PromptMessageTool))
       (frags : List ChatCompletionChunk) (chunks : List LLMResultChunk),
       handle_chat_generate_stream_response encode_for cl100k model pm tools frags = .ok chunks →
       ∀ c ∈ chunks, c.delta.finish_reason ≠ some "tool_calls" →
         c.delta.message.tool_calls = []) := by
  constructor
  · intro model pm st chunk delta rest fc r st' out hyi hst hd hfc htc hfr hr hstep
    have hfin : has_finish_reason_for model delta.finish_reason = true := by
      simp [has_finish_reason_for, hyi, hfr]
    simp only [chat_stream_step, hd, hfin, hst, hfc, htc, chat_step_rest,
      extract_response_function_call, Option.toList, Bool.false_eq_true, if_false,
      ite_false, not_true, false_and, Bool.not_true] at hstep
    simp only [hfr, Option.some.injEq, hr, and_false, if_false, ite_false, if_true,
      ite_true, and_true, true_and, Except.ok.injEq, Prod.mk.injEq] at hstep
    obtain ⟨h1, h2⟩ := hstep
    subst h1
    subst h2
    refine ⟨by simp, by simp, rfl, by simp [mk_chunk]⟩
  · intro ef cl model pm tools frags chunks h
    unfold handle_chat_generate_stream_response at h
    split at h
    · cases h
    · rename_i st outs hloop
      split at h
      · cases h
      · rename_i fin hfin
        injection h with h
        subst h
        intro c hc hcfr
        rcases List.mem_append.mp hc with hin | hin
        · exact ((chat_stream_loop_out hloop).1 c hin).2 hcfr
        · simp only [List.mem_singleton] at hin
          subst hin
          have hmsg := (chat_stream_finalize_out hfin).2
          have hst0 : (init_chat_state model pm).final_chunk.delta.message.tool_calls = [] := by
            simp [init_chat_state, mk_chunk]
          have := (chat_stream_loop_out hloop).2 hst0
          rw [hmsg]
          exact this

/-- Witness for C9 at concrete inputs: the legacy flush scenario of C3's
third fragment (buffer holds name "f", arguments "{}", fragment finishes
with "stop"), and the empty-stream run of C1's witness input. -/
theorem spec_c9_witness :
    (∃ st' out,
       chat_stream_step "gpt-4" []
         {init_chat_state "gpt-4" [] with fc_storage := some ⟨"f", some "{}"⟩}
         ⟨"m", [⟨0, ⟨"", none, none⟩, some "stop"⟩], none, none⟩ = .ok (st', out)
       ∧ st'.final_tool_calls = [] ++ [⟨"f", "function", ⟨"f", "{}"⟩⟩]
       ∧ st'.fc_storage = none
       ∧ out = []
       ∧ st'.final_chunk.delta.message.tool_calls = [])
    ∧ (∃ chunks, handle_chat_generate_stream_response (fun _ => none) (fun s => s.length)
        "gpt-4" [PromptMessage.user (.str "hi") ""] none [] = .ok chunks
      ∧ ∀ c ∈ chunks, c.delta.finish_reason ≠ some "tool_calls" →
          c.delta.message.tool_calls = []) := by
  constructor
  · obtain ⟨p, hp⟩ := (except_is_ok_iff (chat_stream_step "gpt-4" []
      {init_chat_state "gpt-4" [] with fc_storage := some ⟨"f", some "{}"⟩}
      ⟨"m", [⟨0, ⟨"", none, none⟩, some "stop"⟩], none, none⟩)).mp (by decide)
    cases p with
    | mk st' out =>
      exact ⟨st', out, hp,
        spec_c9_legacy_flush_not_attached.1 "gpt-4" []
          {init_chat_state "gpt-4" [] with fc_storage := some ⟨"f", some "{}"⟩}
          ⟨"m", [⟨0, ⟨"", none, none⟩, some "stop"⟩], none, none⟩
          ⟨0, ⟨"", none, none⟩, some "stop"⟩ [] ⟨"f", some "{}"⟩ "stop" st' out
          (by decide) rfl rfl rfl rfl rfl (by decide) hp⟩
  · obtain ⟨chunks, hch⟩ := (except_is_ok_iff
      (handle_chat_generate_stream_response (fun _ => none) (fun s => s.length)
        "gpt-4" [PromptMessage.user (.str "hi") ""] none [])).mp (by decide)
    exact ⟨chunks, hch,
      spec_c9_legacy_flush_not_attached.2 (fun _ => none) (fun s => s.length)
        "gpt-4" [PromptMessage.user (.str "hi") ""] none [] chunks hch⟩

def is_not_implemented : PyErr → Bool
  | .notImplemented _ => true
  | _ => false

lemma convert_part_err {c : PromptMessageContent} {e : PyErr}
    (h : convert_part c = .error e) : e = .indexError "list index out of range" := by
  cases c with
  | text d => cases h
  | image d detail => cases h
  | audio d format =>
    simp only [convert_part] at h
    split at h
    · cases h
    · injection h with h
      exact h.symm

lemma mapM_convert_part_err {l : List PromptMessageContent} {e : PyErr}
    (h : l.mapM convert_part = .error e) : e = .indexError "list index out of range" := by
  induction l with
  | nil => simp [List.mapM, List.mapM.loop, pure, Except.pure] at h
  | cons a l ih =>
    rw [List.mapM_cons] at h
    cases ha : convert_part a with
    | error e' =>
      rw [ha] at h
      simp only [bind, Except.bind, Except.error.injEq] at h
      subst h
      exact convert_part_err ha
    | ok x =>
      rw [ha] at h
      simp only [bind, Except.bind] at h
      cases hl : l.mapM convert_part with
      | error e' =>
        rw [hl] at h
        simp only [Except.error.injEq] at h
        subst h
        exact ih hl
      | ok xs =>
        rw [hl] at h
        simp [pure, Except.pure] at h

lemma convert_dict_err {m : PromptMessage} {e : PyErr}
    (h : convert_prompt_message_to_dict m = .error e) :
    e = .indexError "list index out of range" := by
  cases m with
  | system c n => cases h
  | assistant c tcs n => cases h
  | tool c tcid n => cases h
  | user c n =>
    cases c with
    | str s => cases h
    | parts l =>
      simp only [convert_prompt_message_to_dict] at h
      split at h
      · rename_i e' hm
        injection h with h
        subst h
        exact mapM_convert_part_err hm
      · cases h

lemma mapM_convert_dict_err {msgs : List PromptMessage} {e : PyErr}
    (h : msgs.mapM convert_prompt_message_to_dict = .error e) :
    e = .indexError "list index out of range" := by
  induction msgs with
  | nil => simp [List.mapM, List.mapM.loop, pure, Except.pure] at h
  | cons m ms ih =>
    rw [List.mapM_cons] at h
    cases hm : convert_prompt_message_to_dict m with
    | error e' =>
      rw [hm] at h
      simp only [bind, Except.bind, Except.error.injEq] at h
      subst h
      exact convert_dict_err hm
    | ok w =>
      rw [hm] at h
      simp only [bind, Except.bind] at h
      cases hl : ms.mapM convert_prompt_message_to_dict with
      | error e' =>
        rw [hl] at h
        simp only [Except.error.injEq] at h
        subst h
        exact ih hl
      | ok ws =>
        rw [hl] at h
        simp [pure, Except.pure] at h

lemma item_tokens_err {enc : String → Nat} {kv : String × WireValue} {e : PyErr}
    (h : item_tokens enc kv = .error e) :
    e = .attributeError "str object has no attribute items" ∨ e = .keyError "text" := by
  rcases kv with ⟨k, v⟩
  cases v
  all_goals
    unfold item_tokens string_value_tokens at h
  all_goals
    repeat' split at h
  all_goals
    (cases h <;> simp)

lemma item_fold_err {enc : String → Nat} {tpn : Int}
    {items : List (String × WireValue)} {acc : Int} {e : PyErr}
    (h : items.foldlM
      (fun acc kv =>
        (item_tokens enc kv).map (fun t => acc + t + (if kv.1 = "name" then tpn else 0)))
      acc = .error e) :
    e = .attributeError "str object has no attribute items" ∨ e = .keyError "text" := by
  induction items generalizing acc with
  | nil => simp [List.foldlM, pure, Except.pure] at h
  | cons kv kvs ih =>
    simp only [List.foldlM] at h
    cases hk : item_tokens enc kv with
    | error e' =>
      rw [hk] at h
      simp only [Except.map, bind, Except.bind, Except.error.injEq] at h
      subst h
      exact item_tokens_err hk
    | ok t =>
      rw [hk] at h
      simp only [Except.map, bind, Except.bind] at h
      exact ih h

lemma message_tokens_err {enc : String → Nat} {tpm tpn : Int} {w : WireMessage} {e : PyErr}
    (h : message_tokens enc tpm tpn w = .error e) :
    e = .attributeError "str object has no attribute items" ∨ e = .keyError "text" :=
  item_fold_err h

lemma msg_fold_err {enc : String → Nat} {tpm tpn : Int}
    {dicts : List WireMessage} {acc : Int} {e : PyErr}
    (h : dicts.foldlM (fun acc w => (message_tokens enc tpm tpn w).map (fun t => acc + t)) acc
      = .error e) :
    e = .attributeError "str object has no attribute items" ∨ e = .keyError "text" := by
  induction dicts generalizing acc with
  | nil => simp [List.foldlM, pure, Except.pure] at h
  | cons w ws ih =>
    simp only [List.foldlM] at h
    cases hw : message_tokens enc tpm tpn w with
    | error e' =>
      rw [hw] at h
      simp only [Except.map, bind, Except.bind, Except.error.injEq] at h
      subst h
      exact message_tokens_err hw
    | ok t =>
      rw [hw] at h
      simp only [Except.map, bind, Except.bind] at h
      exact ih h

lemma tool_tokens_err {enc : String → Nat} {t : PromptMessageTool} {e : PyErr}
    (h : tool_tokens enc t = .error e) :
    e = .typeError "expected a string, got NoneType for parameters type" := by
  unfold tool_tokens at h
  split at h
  · injection h with h
    exact h.symm
  · cases h

lemma tools_fold_err {enc : String → Nat} {ts : List PromptMessageTool} {acc : Nat} {e : PyErr}
    (h : ts.foldlM (fun acc tool => (tool_tokens enc tool).map (fun t => acc + t)) acc = .error e) :
    e = .typeError "expected a string, got NoneType for parameters type" := by
  induction ts generalizing acc with
  | nil => simp [List.foldlM, pure, Except.pure] at h
  | cons t ts ih =>
    simp only [List.foldlM] at h
    cases ht : tool_tokens enc t with
    | error e' =>
      rw [ht] at h
      simp only [Except.map, bind, Except.bind, Except.error.injEq] at h
      subst h
      exact tool_tokens_err ht
    | ok n =>
      rw [ht] at h
      simp only [Except.map, bind, Except.bind] at h
      exact ih h

lemma num_tokens_for_tools_err {enc : String → Nat} {ts : List PromptMessageTool} {e : PyErr}
    (h : num_tokens_for_tools enc ts = .error e) :
    e = .typeError "expected a string, got NoneType for parameters type" := by
  unfold num_tokens_for_tools at h
  exact tools_fold_err h

/-- C5: message-level token estimation raises the hard
NotImplementedError exactly when the fine-tune-normalized (and
gpt-4o-remapped) model name belongs to no known per-message accounting
family — every other failure is a different error class, so the hard error
is never silently degraded — whereas a model name with no tokenizer match
never fails for that reason: the computation is identical to running with
the default general-purpose tokenizer, so it still returns an integer
count whenever the accounting family is known and the inputs convert. -/
theorem spec_c5_error_modes (encode_for : String → Option (String → Nat))
    (cl100k : String → Nat) (model : String) (msgs : List PromptMessage)
    (tools : Option (List PromptMessageTool)) :
    ((∃ e, num_tokens_from_messages encode_for cl100k model msgs tools = .error e
        ∧ is_not_implemented e = true)
      ↔ tokens_per_message_for (normalize_model model) = none)
    ∧ (encode_for (normalize_model model) = none →
        num_tokens_from_messages encode_for cl100k model msgs tools =
          num_tokens_from_messages (fun _ => some cl100k) cl100k model msgs tools) := by
  constructor
  · constructor
    · rintro ⟨e, he, hni⟩
      cases hfam : tokens_per_message_for (normalize_model model) with
      | none => rfl
      | some tp =>
        exfalso
        unfold num_tokens_from_messages at he
        simp only [] at he
        rw [hfam] at he
        repeat' split at he
        all_goals
          (try cases he)
        all_goals
          (try (injection he with he
                subst he))
        all_goals first
          | (rename_i heq
             first
               | (rw [mapM_convert_dict_err heq] at hni
                  simp [is_not_implemented] at hni)
               | (rcases msg_fold_err heq with h' | h' <;>
                   (rw [h'] at hni
                    simp [is_not_implemented] at hni))
               | (rw [num_tokens_for_tools_err heq] at hni
                  simp [is_not_implemented] at hni))
          | simp_all [is_not_implemented]
    · intro hfam
      refine ⟨.notImplemented (not_implemented_msg (normalize_model model)), ?_, rfl⟩
      simp [num_tokens_from_messages, hfam]
  · intro hef
    simp only [num_tokens_from_messages, hef, Option.getD]

/-- Witness for C5 at concrete inputs: "gpt-4-custom-variant" has no
tokenizer match, yet estimation proceeds exactly as with the default
tokenizer and returns an integer; and the hard error occurs iff the family
is unknown (here: known, so no NotImplementedError is possible). -/
theorem spec_c5_witness :
    (num_tokens_from_messages (fun _ => none) (fun s => s.length) "gpt-4-custom-variant"
        [PromptMessage.user (.str "hi") ""] none =
      num_tokens_from_messages (fun _ => some (fun s => s.length)) (fun s => s.length)
        "gpt-4-custom-variant" [PromptMessage.user (.str "hi") ""] none)
    ∧ ((∃ e, num_tokens_from_messages (fun _ => none) (fun s => s.length) "gpt-4-custom-variant"
          [PromptMessage.user (.str "hi") ""] none = .error e ∧ is_not_implemented e = true)
        ↔ tokens_per_message_for (normalize_model "gpt-4-custom-variant") = none) :=
  ⟨(spec_c5_error_modes (fun _ => none) (fun s => s.length) "gpt-4-custom-variant"
      [PromptMessage.user (.str "hi") ""] none).2 rfl,
   (spec_c5_error_modes (fun _ => none) (fun s => s.length) "gpt-4-custom-variant"
      [PromptMessage.user (.str "hi") ""] none).1⟩

def c2_map : AggMap := [((0 : Int), ⟨0, "id1", "function", some ⟨"f", some "\x7b"⟩⟩)]

def c2_incoming : ChoiceDeltaToolCall := ⟨0, "", "", some ⟨"", some "\x7d"⟩⟩

def c2_existing : ChoiceDeltaToolCall := ⟨0, "id1", "function", some ⟨"f", some "\x7b"⟩⟩

def c2_merged : ChoiceDeltaToolCall := ⟨0, "id1", "function", some ⟨"f", some "{}"⟩⟩

/-- Witness for C2 at a concrete input: an argument-only continuation
fragment for a known index appends "}" to "{" and clears nothing. -/
theorem spec_c2_witness :
    aggregate_one c2_map c2_incoming = .ok (agg_update c2_map c2_incoming.index c2_merged)
    ∧ c2_merged.id = (if c2_incoming.id = "" then c2_existing.id else c2_incoming.id)
    ∧ c2_merged.type = (if c2_incoming.type = "" then c2_existing.type else c2_incoming.type)
    ∧ frag_func_name c2_merged =
        (if frag_func_name c2_incoming = "" then frag_func_name c2_existing
         else frag_func_name c2_incoming)
    ∧ frag_func_args c2_merged = frag_func_args c2_existing ++ frag_func_args c2_incoming :=
  spec_c2_merge_monotonic c2_map c2_incoming c2_existing c2_merged (by decide) (by decide)

/-- Witness for C4's amended statement at a concrete tokenizer
(character-count encoder): 3 + 4 + 2 + 0 + 3 = 12. -/
theorem spec_c4_witness :
    num_tokens_from_messages (fun _ => none) (fun s => s.length) "gpt-4"
      [PromptMessage.user (.str "hi") ""] none =
      .ok (3 + (("user".length : Nat) : Int) + (("hi".length : Nat) : Int) + 0 + 3) :=
  spec_c4_single_message_estimate (fun _ => none) (fun s => s.length)
